import Mathlib

/-!
Verification development for the SoroswapTutorial client library
(`src/utils.ts`, `src/index.ts`, `src/types.ts`).

The TypeScript source is shallowly embedded: pure functions become Lean
functions, the polling loop becomes a fuel-indexed function over an abstract
response sequence, fallible operations return `Except`, and JavaScript
numbers in the price-band computation are modelled as exact rationals.
-/

namespace Soroswap

/-! ## Transaction tracking statuses (sdk.SorobanRpc.Api.GetTransactionStatus) -/

/-- Status reported by the tracking service for a transaction hash:
`NOT_FOUND` is the "not yet observed" interim state; `SUCCESS` and `FAILED`
are the terminal states. -/
inductive GetTransactionStatus where
  | NOT_FOUND
  | SUCCESS
  | FAILED
deriving DecidableEq, Repr

/-- A response from `server.getTransaction(hash)`: a status together with an
abstract payload standing for the rest of the response object. -/
structure GetTransactionResponse where
  status : GetTransactionStatus
  payload : Nat
deriving DecidableEq, Repr

/-! ## utils.ts `waitForConfirmation` (lines 113-123)

The tracking service is modelled as the sequence `service : Nat → Response`
of successive `getTransaction` responses for the polled hash.  The loop

    do { c = await getTransaction(hash);
         if (c.status !== NOT_FOUND) break;
         await sleep(1000); } while (true);
    return c;

is embedded with explicit fuel; `i` counts the queries already answered,
which equals the number of 1-second suspensions performed so far (one
suspension follows each interim response).  The result pairs the returned
response with the number of suspensions performed. -/

/-- Fuel-indexed embedding of `waitForConfirmation`.  `none` means the loop
did not finish within `fuel` iterations. -/
def waitForConfirmation (service : Nat → GetTransactionResponse) :
    Nat → Nat → Option (GetTransactionResponse × Nat)
  | 0, _ => none
  | fuel + 1, i =>
    let confirmation := service i
    if confirmation.status ≠ GetTransactionStatus.NOT_FOUND then
      some (confirmation, i)
    else
      waitForConfirmation service fuel (i + 1)

/-- Any response the poller returns has a terminal (non-`NOT_FOUND`) status,
and it is the response the service gave at the recorded index. -/
theorem waitForConfirmation_returns_terminal
    (service : Nat → GetTransactionResponse) :
    ∀ fuel i r, waitForConfirmation service fuel i = some r →
      r.1 = service r.2 ∧ r.1.status ≠ GetTransactionStatus.NOT_FOUND := by
  intro fuel
  induction fuel with
  | zero => intro i r h; simp [waitForConfirmation] at h
  | succ n ih =>
    intro i r h
    rw [waitForConfirmation] at h
    by_cases hs : (service i).status ≠ GetTransactionStatus.NOT_FOUND
    · rw [if_pos hs] at h
      cases h
      exact ⟨rfl, hs⟩
    · rw [if_neg hs] at h
      exact ih (i + 1) r h

/-- If the first terminal response is at index `k` (counting from the start
index `i`), the poller returns exactly that response paired with `k`. -/
theorem waitForConfirmation_reaches_first
    (service : Nat → GetTransactionResponse) (k : Nat)
    (hk : (service k).status ≠ GetTransactionStatus.NOT_FOUND) :
    ∀ fuel i, i ≤ k → k < i + fuel →
      (∀ j, i ≤ j → j < k → (service j).status = GetTransactionStatus.NOT_FOUND) →
      waitForConfirmation service fuel i = some (service k, k) := by
  intro fuel
  induction fuel with
  | zero => intro i h1 h2 _; omega
  | succ n ih =>
    intro i h1 h2 hmin
    rw [waitForConfirmation]
    rcases Nat.eq_or_lt_of_le h1 with heq | hlt
    · subst heq
      simp [hk]
    · have hi : (service i).status = GetTransactionStatus.NOT_FOUND :=
        hmin i le_rfl hlt
      simp only [hi]
      have : ¬ (GetTransactionStatus.NOT_FOUND ≠ GetTransactionStatus.NOT_FOUND) := by
        simp
      rw [if_neg this]
      exact ih (i + 1) hlt (by omega) (fun j hj1 hj2 => hmin j (by omega) hj2)

/-- C1: for every tracking service, if `k` is the first index whose response
has a status other than `NOT_FOUND`, the poller returns exactly that
response, after performing exactly `k` fixed-interval suspensions (one per
interim response); moreover any response it ever returns has a terminal
status, so the interim `NOT_FOUND` state never reaches the caller. -/
theorem waitForConfirmation_first_terminal
    (service : Nat → GetTransactionResponse) (k fuel : Nat)
    (hk : (service k).status ≠ GetTransactionStatus.NOT_FOUND)
    (hmin : ∀ j, j < k → (service j).status = GetTransactionStatus.NOT_FOUND)
    (hfuel : k < fuel) :
    waitForConfirmation service fuel 0 = some (service k, k) ∧
      ∀ f i r, waitForConfirmation service f i = some r →
        r.1.status ≠ GetTransactionStatus.NOT_FOUND := by
  constructor
  · exact waitForConfirmation_reaches_first service k hk fuel 0 (Nat.zero_le k)
      (by omega) (fun j _ hj => hmin j hj)
  · intro f i r h
    exact (waitForConfirmation_returns_terminal service f i r h).2

/-- The "not yet observed twice, then success" service of the claim. -/
def twoThenSuccessService : Nat → GetTransactionResponse :=
  fun n =>
    if n < 2 then ⟨GetTransactionStatus.NOT_FOUND, 0⟩
    else ⟨GetTransactionStatus.SUCCESS, 7⟩

/-- C1 witness: on the service that answers `NOT_FOUND` twice then `SUCCESS`,
the poller performs exactly two suspensions and returns the success
response. -/
theorem waitForConfirmation_first_terminal_witness :
    waitForConfirmation twoThenSuccessService 3 0 =
      some (⟨GetTransactionStatus.SUCCESS, 7⟩, 2) :=
  (waitForConfirmation_first_terminal twoThenSuccessService 2 3
    (by decide) (by decide) (by decide)).1

/-- If some index in the remaining window has a terminal status, the loop
finishes within the corresponding fuel. -/
theorem waitForConfirmation_terminates_of_terminal
    (service : Nat → GetTransactionResponse) :
    ∀ fuel i, (∃ k, i ≤ k ∧ k < i + fuel ∧
        (service k).status ≠ GetTransactionStatus.NOT_FOUND) →
      ∃ r, waitForConfirmation service fuel i = some r := by
  intro fuel
  induction fuel with
  | zero => intro i ⟨k, h1, h2, _⟩; omega
  | succ n ih =>
    intro i ⟨k, h1, h2, hterm⟩
    rw [waitForConfirmation]
    by_cases hs : (service i).status ≠ GetTransactionStatus.NOT_FOUND
    · exact ⟨(service i, i), by simp [hs]⟩
    · have hik : i ≠ k := fun h => hs (h ▸ hterm)
      rw [if_neg hs]
      exact ih (i + 1) ⟨k, by omega, by omega, hterm⟩

/-- C2: the poller has no retry bound and no timeout: it returns (for some
fuel) exactly when the service eventually reports a status other than
`NOT_FOUND`; in particular, a service that always answers `NOT_FOUND`
makes the loop run forever (no fuel suffices). -/
theorem waitForConfirmation_no_retry_bound
    (service : Nat → GetTransactionResponse) :
    ((∃ fuel r, waitForConfirmation service fuel 0 = some r) ↔
      (∃ k, (service k).status ≠ GetTransactionStatus.NOT_FOUND)) ∧
    ((∀ k, (service k).status = GetTransactionStatus.NOT_FOUND) →
      ∀ fuel, waitForConfirmation service fuel 0 = none) := by
  constructor
  · constructor
    · rintro ⟨fuel, r, h⟩
      have hr := waitForConfirmation_returns_terminal service fuel 0 r h
      exact ⟨r.2, hr.1 ▸ hr.2⟩
    · rintro ⟨k, hk⟩
      obtain ⟨r, hr⟩ := waitForConfirmation_terminates_of_terminal service (k + 1) 0
        ⟨k, Nat.zero_le k, by omega, hk⟩
      exact ⟨k + 1, r, hr⟩
  · intro hall fuel
    cases hcase : waitForConfirmation service fuel 0 with
    | none => rfl
    | some r =>
      have hr := waitForConfirmation_returns_terminal service fuel 0 r hcase
      exact absurd (hall r.2) (hr.1 ▸ hr.2)

/-- C2 witness: with the always-`NOT_FOUND` service, no amount of fuel makes
the poller return. -/
theorem waitForConfirmation_no_retry_bound_witness :
    waitForConfirmation (fun _ => ⟨GetTransactionStatus.NOT_FOUND, 0⟩) 5 0 = none :=
  (waitForConfirmation_no_retry_bound
    (fun _ => ⟨GetTransactionStatus.NOT_FOUND, 0⟩)).2 (fun _ => rfl) 5

/-! ## utils.ts `getNetworkPassphrase` (lines 79-88) -/

/-- `sdk.Networks.TESTNET`. -/
def Networks_TESTNET : String := "Test SDF Network ; September 2015"

/-- `sdk.Networks.STANDALONE`. -/
def Networks_STANDALONE : String := "Standalone Network ; February 2017"

/-- Embedding of `getNetworkPassphrase`: the `switch` becomes sequential
comparison against the two recognized names and the `throw` becomes
`Except.error`. -/
def getNetworkPassphrase (network : String) : Except String String :=
  if network = "testnet" then Except.ok Networks_TESTNET
  else if network = "standalone" then Except.ok Networks_STANDALONE
  else Except.error "Unsupported network. Only standalone and testnet are supported."

/-- C5: the resolver returns a distinct stable passphrase for "standalone"
and "testnet", and raises the unsupported-network configuration error on
every other input, never returning a default value. -/
theorem getNetworkPassphrase_spec :
    getNetworkPassphrase "standalone" = Except.ok Networks_STANDALONE ∧
    getNetworkPassphrase "testnet" = Except.ok Networks_TESTNET ∧
    Networks_STANDALONE ≠ Networks_TESTNET ∧
    ∀ s : String, s ≠ "standalone" → s ≠ "testnet" →
      getNetworkPassphrase s =
        Except.error "Unsupported network. Only standalone and testnet are supported." := by
  refine ⟨rfl, rfl, by decide, ?_⟩
  intro s h1 h2
  rw [getNetworkPassphrase, if_neg h2, if_neg h1]

/-- C5 witness: the resolver rejects the input "mainnet". -/
theorem getNetworkPassphrase_spec_witness :
    getNetworkPassphrase "mainnet" =
      Except.error "Unsupported network. Only standalone and testnet are supported." :=
  getNetworkPassphrase_spec.2.2.2 "mainnet" (by decide) (by decide)

/-! ## utils.ts `getCurrentTimePlusOneHour` (lines 129-138)

`Date.now()` is abstracted as the argument `now` (milliseconds since epoch).
`Math.floor` on the quotient is faithful to Nat division here: epoch
milliseconds are far below 2^53, so the double computation never rounds
across an integer boundary. -/

/-- Embedding of `getCurrentTimePlusOneHour`: adds 36,000,000 ms (10 hours,
despite the function's name) and converts to whole seconds. -/
def getCurrentTimePlusOneHour (now : Nat) : Nat :=
  (now + 36000000) / 1000

/-! ## Router-contract invocations (index.ts lines 209-308)

`sdk.nativeToScVal` / `Address.toScVal` results are modelled by a small
`ScVal` datatype; `Number(...)` string-to-number conversions are modelled by
taking the numeric arguments directly as integers. -/

/-- Model of the Soroban `ScVal` values the facade constructs. -/
inductive ScVal where
  | address (a : String)
  | i128 (n : Int)
  | u64 (n : Nat)
  | vec (xs : List ScVal)
deriving Repr

/-- A router-contract invocation: `routerContract.call(functionName, ...args)`. -/
structure ContractCall where
  contract : String
  functionName : String
  args : List ScVal

/-- The `add_liquidity` invocation built by `addLiquiditySoroswap`. -/
def addLiquiditySoroswapCall (routerContractAddress tokenA tokenB : String)
    (amountADesired amountBDesired amountAMin amountBMin : Int)
    (toPublicKey : String) (now : Nat) : ContractCall :=
  { contract := routerContractAddress
    functionName := "add_liquidity"
    args := [ScVal.address tokenA, ScVal.address tokenB,
             ScVal.i128 amountADesired, ScVal.i128 amountBDesired,
             ScVal.i128 amountAMin, ScVal.i128 amountBMin,
             ScVal.address toPublicKey,
             ScVal.u64 (getCurrentTimePlusOneHour now)] }

/-- The `remove_liquidity` invocation built by `removeLiquiditySoroswap`. -/
def removeLiquiditySoroswapCall (routerContractAddress tokenA tokenB : String)
    (liquidity amountAMin amountBMin : Int)
    (toPublicKey : String) (now : Nat) : ContractCall :=
  { contract := routerContractAddress
    functionName := "remove_liquidity"
    args := [ScVal.address tokenA, ScVal.address tokenB,
             ScVal.i128 liquidity,
             ScVal.i128 amountAMin, ScVal.i128 amountBMin,
             ScVal.address toPublicKey,
             ScVal.u64 (getCurrentTimePlusOneHour now)] }

/-- The `swap_exact_tokens_for_tokens` invocation built by
`swapExactTokensForTokensSoroswap`. -/
def swapExactTokensForTokensSoroswapCall (routerContractAddress : String)
    (amountIn amountOutMin : Int) (path : List String)
    (toPublicKey : String) (now : Nat) : ContractCall :=
  { contract := routerContractAddress
    functionName := "swap_exact_tokens_for_tokens"
    args := [ScVal.i128 amountIn, ScVal.i128 amountOutMin,
             ScVal.vec (path.map ScVal.address),
             ScVal.address toPublicKey,
             ScVal.u64 (getCurrentTimePlusOneHour now)] }

/-- C4: for every fixed current time `now` (ms), the trailing deadline
argument of each of the three router-contract calls is exactly
`⌊(now + 36000000) / 1000⌋` seconds, i.e. current time plus a fixed
36,000,000 ms (10-hour) horizon. -/
theorem routerCall_deadline_formula
    (router tokenA tokenB toPk : String) (a b c d : Int)
    (path : List String) (now : Nat) :
    (addLiquiditySoroswapCall router tokenA tokenB a b c d toPk now).args.getLast?
        = some (ScVal.u64 ((now + 36000000) / 1000)) ∧
    (removeLiquiditySoroswapCall router tokenA tokenB a b c toPk now).args.getLast?
        = some (ScVal.u64 ((now + 36000000) / 1000)) ∧
    (swapExactTokensForTokensSoroswapCall router a b path toPk now).args.getLast?
        = some (ScVal.u64 ((now + 36000000) / 1000)) ∧
    getCurrentTimePlusOneHour now = (now + 36000000) / 1000 :=
  ⟨rfl, rfl, rfl, rfl⟩

/-! ## index.ts `liquidityPoolDeposit` (lines 120-158): the price band

JavaScript numbers are modelled as exact rationals; `toFixed(7)` becomes
rounding to the nearest multiple of 10^-7 (ties upward, as the ECMAScript
`toFixed` specification picks the larger candidate) followed by fixed
7-decimal rendering.  The source only applies it to nonnegative prices. -/

/-- Left-pads a digit string with zeros to width 7 (fractional part of a
fixed 7-decimal rendering). -/
def padZeros7 (s : String) : String :=
  if s.length < 7 then String.mk (List.replicate (7 - s.length) '0') ++ s else s

/-- `x.toFixed(7)` for nonnegative `x`, over exact rationals. -/
def toFixed7 (q : ℚ) : String :=
  let n : Int := round (q * 10 ^ 7)
  let m : Nat := n.toNat
  toString (m / 10 ^ 7) ++ "." ++ padZeros7 (toString (m % 10 ^ 7))

/-- The `liquidityPoolDeposit` operation payload passed to
`sdk.Operation.liquidityPoolDeposit` (reserve strings modelled by their
numeric denotations). -/
structure LiquidityPoolDepositOp where
  liquidityPoolId : String
  maxAmountA : ℚ
  maxAmountB : ℚ
  minPrice : String
  maxPrice : String

/-- Embedding of the numeric policy of `TxMaker.liquidityPoolDeposit`:
`exactPrice = maxReserveA / maxReserveB`, a ±10% band, 7-decimal fixed
formatting. -/
def liquidityPoolDepositOp (poolId : String) (maxReserveA maxReserveB : ℚ) :
    LiquidityPoolDepositOp :=
  let exactPrice := maxReserveA / maxReserveB
  let minPrice := exactPrice - exactPrice * (1 / 10)
  let maxPrice := exactPrice + exactPrice * (1 / 10)
  { liquidityPoolId := poolId
    maxAmountA := maxReserveA
    maxAmountB := maxReserveB
    minPrice := toFixed7 minPrice
    maxPrice := toFixed7 maxPrice }

/-- C3: for every pair of positive reserves the deposit operation's bounds
are `price*(1-0.1)` and `price*(1+0.1)` in 7-decimal fixed formatting, where
`price = reserveA / reserveB`; in particular for reserves 200 and 100 the
exact price is 2 and the formatted band is "1.8000000" .. "2.2000000". -/
theorem liquidityPoolDeposit_price_band :
    (∀ (poolId : String) (a b : ℚ), 0 < a → 0 < b →
      (liquidityPoolDepositOp poolId a b).minPrice = toFixed7 (a / b * (1 - 1 / 10)) ∧
      (liquidityPoolDepositOp poolId a b).maxPrice = toFixed7 (a / b * (1 + 1 / 10))) ∧
    (200 : ℚ) / 100 = 2 ∧
    (liquidityPoolDepositOp "pool" 200 100).minPrice = "1.8000000" ∧
    (liquidityPoolDepositOp "pool" 200 100).maxPrice = "2.2000000" := by
  refine ⟨?_, by norm_num, ?_, ?_⟩
  · intro poolId a b _ _
    constructor
    · show toFixed7 (a / b - a / b * (1 / 10)) = toFixed7 (a / b * (1 - 1 / 10))
      congr 1
      ring
    · show toFixed7 (a / b + a / b * (1 / 10)) = toFixed7 (a / b * (1 + 1 / 10))
      congr 1
      ring
  · show toFixed7 ((200 : ℚ) / 100 - 200 / 100 * (1 / 10)) = "1.8000000"
    have h : ((200 : ℚ) / 100 - 200 / 100 * (1 / 10)) * 10 ^ 7 = ((18000000 : ℕ) : ℚ) := by
      norm_num
    simp only [toFixed7, h, round_natCast, Int.toNat_natCast]
    decide
  · show toFixed7 ((200 : ℚ) / 100 + 200 / 100 * (1 / 10)) = "2.2000000"
    have h : ((200 : ℚ) / 100 + 200 / 100 * (1 / 10)) * 10 ^ 7 = ((22000000 : ℕ) : ℚ) := by
      norm_num
    simp only [toFixed7, h, round_natCast, Int.toNat_natCast]
    decide

/-- C3 witness: the general band formula applied at reserves 3 and 2. -/
theorem liquidityPoolDeposit_price_band_witness :
    (liquidityPoolDepositOp "p" 3 2).minPrice = toFixed7 ((3 : ℚ) / 2 * (1 - 1 / 10)) :=
  (liquidityPoolDeposit_price_band.1 "p" 3 2 (by norm_num) (by norm_num)).1

/-! ## utils.ts `hexToByte` (lines 146-156) -/

/-- Value of a single hexadecimal digit character, `none` on anything else. -/
def hexDigitValue? (c : Char) : Option Nat :=
  if '0' ≤ c ∧ c ≤ '9' then some (c.toNat - '0'.toNat)
  else if 'a' ≤ c ∧ c ≤ 'f' then some (c.toNat - 'a'.toNat + 10)
  else if 'A' ≤ c ∧ c ≤ 'F' then some (c.toNat - 'A'.toNat + 10)
  else none

/-- `parseInt(two-character string, 16)` followed by the `Uint8Array` store:
both digits valid gives the byte value, an invalid second digit makes
`parseInt` keep only the first, an invalid first digit gives `NaN`, which
the typed-array store coerces to 0. -/
def parseIntHex2 (c1 c2 : Char) : Nat :=
  match hexDigitValue? c1 with
  | none => 0
  | some v1 =>
    match hexDigitValue? c2 with
    | none => v1
    | some v2 => 16 * v1 + v2

/-- The byte-filling loop of `hexToByte`: consume the characters two at a
time (`substr(i * 2, 2)`). -/
def hexToByteList : List Char → List Nat
  | c1 :: c2 :: rest => parseIntHex2 c1 c2 :: hexToByteList rest
  | _ => []

/-- Embedding of `hexToByte`: the odd-length `throw` becomes `Except.error`;
a returned `List Nat` stands for the `Uint8Array`. -/
def hexToByte (hexString : String) : Except String (List Nat) :=
  if hexString.length % 2 ≠ 0 then
    Except.error "Must have an even number of hex digits to convert to bytes"
  else
    Except.ok (hexToByteList hexString.data)

/-- The canonical two-lowercase-hex-digit encoding of a byte. -/
def byteToHexChars (b : Nat) : List Char :=
  [Nat.digitChar (b / 16), Nat.digitChar (b % 16)]

/-- Encode a byte list as a hex string, two digits per byte. -/
def bytesToHexString (bs : List Nat) : String :=
  String.mk (bs.map byteToHexChars).flatten

theorem hexDigitValue_digitChar {v : Nat} (h : v < 16) :
    hexDigitValue? (Nat.digitChar v) = some v := by
  interval_cases v <;> decide

theorem parseIntHex2_byteToHexChars {b : Nat} (h : b < 256) :
    parseIntHex2 (Nat.digitChar (b / 16)) (Nat.digitChar (b % 16)) = b := by
  have h1 : b / 16 < 16 := Nat.div_lt_of_lt_mul h
  have h2 : b % 16 < 16 := Nat.mod_lt b (by norm_num)
  rw [parseIntHex2, hexDigitValue_digitChar h1, hexDigitValue_digitChar h2]
  exact Nat.div_add_mod b 16

theorem hexToByteList_encode (bs : List Nat) (h : ∀ b ∈ bs, b < 256) :
    hexToByteList (bs.map byteToHexChars).flatten = bs := by
  induction bs with
  | nil => rfl
  | cons b rest ih =>
    have hb : b < 256 := h b (List.mem_cons_self b rest)
    simp only [List.map_cons, List.flatten_cons, byteToHexChars, List.cons_append,
      List.append_eq, List.nil_append, hexToByteList]
    rw [parseIntHex2_byteToHexChars hb, ih (fun x hx => h x (List.mem_cons_of_mem b hx))]

theorem bytesToHexString_length (bs : List Nat) :
    (bytesToHexString bs).length = 2 * bs.length := by
  induction bs with
  | nil => rfl
  | cons b rest ih =>
    simp only [bytesToHexString, String.length, List.map_cons, List.flatten_cons,
      byteToHexChars, List.length_append, List.length_cons, List.length_nil] at *
    omega

/-- C9: decoding is inverse to two-hex-digit encoding — for every byte list
the encoded hex string decodes back to exactly those bytes — and every
odd-length input string produces the explicit even-length error, never a
truncated byte array. -/
theorem hexToByte_spec :
    (∀ bs : List Nat, (∀ b ∈ bs, b < 256) →
      hexToByte (bytesToHexString bs) = Except.ok bs) ∧
    (∀ s : String, s.length % 2 = 1 →
      hexToByte s =
        Except.error "Must have an even number of hex digits to convert to bytes") := by
  constructor
  · intro bs h
    rw [hexToByte, if_neg (by rw [bytesToHexString_length]; omega)]
    exact congrArg Except.ok (hexToByteList_encode bs h)
  · intro s h
    rw [hexToByte, if_pos (by omega)]

/-- C9 witness: the bytes [1, 171] round-trip through "01ab", and the
odd-length string "abc" is rejected. -/
theorem hexToByte_spec_witness :
    hexToByte (bytesToHexString [1, 171]) = Except.ok [1, 171] ∧
    hexToByte "abc" =
      Except.error "Must have an even number of hex digits to convert to bytes" :=
  ⟨hexToByte_spec.1 [1, 171] (by decide), hexToByte_spec.2 "abc" (by decide)⟩

/-! ## index.ts `TxMaker.buildTx` (lines 55-67) -/

/-- `sdk.BASE_FEE`: the fixed base fee, 100 stroops per operation. -/
def BASE_FEE : Nat := 100

/-- A source account: identifier plus current sequence number. -/
structure Account where
  accountId : String
  sequence : Nat

/-- A built transaction envelope (the fields of the claim; `maxTime` is the
upper time bound in seconds set by `setTimeout`). -/
structure Transaction (Op : Type) where
  source : String
  fee : Nat
  networkPassphrase : String
  maxTime : Nat
  operations : List Op
  signatures : List String
deriving DecidableEq

/-- Modelled from the spec: the stellar-sdk `TransactionBuilder`,
`setTimeout(30)`, `build()` and `sign` internals are not part of this
repository's sources.  Following §4.1, the builder assigns the fixed base
fee per operation (so the envelope fee is `BASE_FEE * ops.length`), attaches
the passphrase resolved by `getNetworkPassphrase` for the configured network
(the resolver's error propagates), sets an expiration bound 30 seconds from
construction time `now`, and signs with the supplied key.  The embedding is
a pure function: it performs no network I/O. -/
def buildTx {Op : Type} (network : String) (source : Account) (signer : String)
    (ops : List Op) (now : Nat) : Except String (Transaction Op) :=
  match getNetworkPassphrase network with
  | Except.error e => Except.error e
  | Except.ok passphrase =>
    Except.ok
      { source := source.accountId
        fee := BASE_FEE * ops.length
        networkPassphrase := passphrase
        maxTime := now + 30
        operations := ops
        signatures := [signer] }

/-- C6: the envelope built by `TxMaker.buildTx` carries the fixed base fee
per operation, the passphrase resolved for the configured network (with the
unsupported-network error propagated otherwise), an expiration bound 30
seconds from construction time, and the supplied key's signature. -/
theorem buildTx_spec {Op : Type} (network : String) (source : Account)
    (signer : String) (ops : List Op) (now : Nat) :
    (∀ p, getNetworkPassphrase network = Except.ok p →
      buildTx network source signer ops now = Except.ok
        { source := source.accountId
          fee := BASE_FEE * ops.length
          networkPassphrase := p
          maxTime := now + 30
          operations := ops
          signatures := [signer] }) ∧
    (∀ e, getNetworkPassphrase network = Except.error e →
      buildTx network source signer ops now = Except.error e) := by
  constructor
  · intro p hp
    rw [buildTx, hp]
  · intro e he
    rw [buildTx, he]

/-- C6 witness: a one-operation envelope on "testnet" at time 5. -/
theorem buildTx_spec_witness :
    buildTx "testnet" ⟨"GSOURCE", 1⟩ "SIGNER" [()] 5 = Except.ok
      { source := "GSOURCE"
        fee := BASE_FEE * 1
        networkPassphrase := Networks_TESTNET
        maxTime := 35
        operations := [()]
        signatures := ["SIGNER"] } :=
  (buildTx_spec "testnet" ⟨"GSOURCE", 1⟩ "SIGNER" [()] 5).1 Networks_TESTNET rfl

/-! ## index.ts `TxMaker.fundAccount` (lines 69-93)

The faucet interaction (`fetch` + `.json()`) is modelled by its result: a
transport/parse failure, or a parsed response with a `successful` flag and a
`detail` string.  `fundAccount` is a total function into the outcome type
below, which has no "thrown" constructor: every branch of the source either
logs success or logs an error, and the `catch` absorbs transport failures. -/

/-- Parsed friendbot response. -/
structure FaucetResponse where
  successful : Bool
  detail : String
deriving DecidableEq

/-- Observable outcome of `fundAccount` (its console reporting). -/
inductive FundAccountOutcome where
  | created
  | alreadyExists
  | reportedError
  | transportError
deriving DecidableEq, Repr

/-- The exact "account already exists" sentinel compared against `detail`. -/
def friendbotAlreadyExistsDetail : String :=
  "createAccountAlreadyExist (AAAAAAAAAGT/////AAAAAQAAAAAAAAAA/////AAAAAA=)"

/-- Embedding of `fundAccount` over the faucet interaction result. -/
def fundAccount (result : Except String FaucetResponse) : FundAccountOutcome :=
  match result with
  | Except.error _ => FundAccountOutcome.transportError
  | Except.ok r =>
    if r.successful then FundAccountOutcome.created
    else if r.detail = friendbotAlreadyExistsDetail then FundAccountOutcome.alreadyExists
    else FundAccountOutcome.reportedError

/-- Outcomes the spec counts as success. -/
def FundAccountOutcome.isSuccess : FundAccountOutcome → Bool
  | FundAccountOutcome.created => true
  | FundAccountOutcome.alreadyExists => true
  | _ => false

/-- C8: a `successful=true` faucet response is a success outcome; an
unsuccessful response whose `detail` equals the known already-exists
sentinel is also a success (idempotent); every other unsuccessful response
is a reported error and every transport failure a reported transport error
— `fundAccount` is total, so the helper never throws. -/
theorem fundAccount_spec :
    (∀ r : FaucetResponse, r.successful = true →
      (fundAccount (Except.ok r)).isSuccess = true) ∧
    (∀ r : FaucetResponse, r.successful = false →
      r.detail = friendbotAlreadyExistsDetail →
      (fundAccount (Except.ok r)).isSuccess = true) ∧
    (∀ r : FaucetResponse, r.successful = false →
      r.detail ≠ friendbotAlreadyExistsDetail →
      fundAccount (Except.ok r) = FundAccountOutcome.reportedError) ∧
    (∀ e : String, fundAccount (Except.error e) = FundAccountOutcome.transportError) := by
  refine ⟨?_, ?_, ?_, fun _ => rfl⟩
  · intro r h
    rw [fundAccount, if_pos h]
    rfl
  · intro r h hd
    rw [fundAccount, if_neg (by rw [h]; exact Bool.false_ne_true), if_pos hd]
    rfl
  · intro r h hd
    rw [fundAccount, if_neg (by rw [h]; exact Bool.false_ne_true), if_neg hd]

/-- C8 witness: the three parsed-response cases at concrete inputs, plus a
transport failure. -/
theorem fundAccount_spec_witness :
    (fundAccount (Except.ok ⟨true, ""⟩)).isSuccess = true ∧
    (fundAccount (Except.ok ⟨false, friendbotAlreadyExistsDetail⟩)).isSuccess = true ∧
    fundAccount (Except.ok ⟨false, "op_underfunded"⟩) = FundAccountOutcome.reportedError ∧
    fundAccount (Except.error "ECONNREFUSED") = FundAccountOutcome.transportError :=
  ⟨fundAccount_spec.1 ⟨true, ""⟩ rfl,
   fundAccount_spec.2.1 ⟨false, friendbotAlreadyExistsDetail⟩ rfl rfl,
   fundAccount_spec.2.2.1 ⟨false, "op_underfunded"⟩ rfl (by decide),
   fundAccount_spec.2.2.2 "ECONNREFUSED"⟩

/-! ## utils.ts `getRouterContractAddress` (lines 11-22)

The discovery endpoint's result is modelled as either a transport failure or
the parsed list of records.  When `find` produces no match, the source
dereferences `undefined.router_address`, which throws a `TypeError`; the
surrounding `catch` absorbs it and the function falls through to
`return "error"`, so the embedding is a total function into `String`. -/

/-- One record of the discovery endpoint's response. -/
structure RouterRecord where
  network : String
  router_id : String
  router_address : String
deriving DecidableEq

/-- Embedding of `getRouterContractAddress` over the HTTP result. -/
def getRouterContractAddress (network : String)
    (response : Except String (List RouterRecord)) : String :=
  match response with
  | Except.error _ => "error"
  | Except.ok data =>
    match data.find? (fun r => r.network = network) with
    | some router => router.router_address
    | none => "error"

/-- C10: `getRouterContractAddress` never raises — it is total — and returns
the matching record's `router_address` when the response contains one, and
the literal string "error" when no record matches or the transport fails. -/
theorem getRouterContractAddress_spec (network : String)
    (data : List RouterRecord) :
    (∀ r, data.find? (fun x => x.network = network) = some r →
      getRouterContractAddress network (Except.ok data) = r.router_address) ∧
    (data.find? (fun x => x.network = network) = none →
      getRouterContractAddress network (Except.ok data) = "error") ∧
    (∀ e : String, getRouterContractAddress network (Except.error e) = "error") := by
  refine ⟨?_, ?_, fun _ => rfl⟩
  · intro r hr
    rw [getRouterContractAddress, hr]
  · intro hn
    rw [getRouterContractAddress, hn]

/-- C10 witness: a matching record is found on one response; a mismatched
response and a transport failure both yield "error". -/
theorem getRouterContractAddress_spec_witness :
    getRouterContractAddress "testnet"
        (Except.ok [⟨"standalone", "1", "CSTAND"⟩, ⟨"testnet", "2", "CTEST"⟩]) = "CTEST" ∧
    getRouterContractAddress "futurenet"
        (Except.ok [⟨"standalone", "1", "CSTAND"⟩]) = "error" ∧
    getRouterContractAddress "testnet" (Except.error "timeout") = "error" :=
  ⟨(getRouterContractAddress_spec "testnet"
      [⟨"standalone", "1", "CSTAND"⟩, ⟨"testnet", "2", "CTEST"⟩]).1
      ⟨"testnet", "2", "CTEST"⟩ (by decide),
   (getRouterContractAddress_spec "futurenet" [⟨"standalone", "1", "CSTAND"⟩]).2.1
      (by decide),
   (getRouterContractAddress_spec "testnet" []).2.2 "timeout"⟩

/-! ## index.ts facade methods: error routing (lines 95-308)

Each facade method is embedded as a function of the results of the external
service calls it performs, in source order.  `FacadeEnv` records those
results; an `Except.error` field means the corresponding awaited call
rejected (or threw).  The embedding places each call inside or outside the
method's `try` block exactly as the source does:

* `payment` / `liquidityPoolWithdraw`: account load and `buildTx` precede
  the `try`; submit and confirmation-wait are inside it, and the `catch`
  returns `{status: "error", error}`.
* `liquidityPoolDeposit`: everything, including `buildTx`, is inside the
  `try`; the `catch` returns the uniform error object.
* `mintTokens`: account load, `buildTx` and `prepareTransaction` precede
  the `try`; send and wait are inside it, `catch` returns the uniform
  error object.
* `addLiquiditySoroswap`, `removeLiquiditySoroswap`,
  `swapExactTokensForTokensSoroswap`: account load, `buildTx` and
  `prepareTransaction` precede the `try`; the `catch` only logs, so the
  method resolves to `undefined`. -/

/-- Results of the external calls a facade method performs. -/
structure FacadeEnv where
  network : String
  loadAccount : Except String Account
  getAccount : Except String Account
  submitTransaction : Except String String
  prepareTransaction : Except String Unit
  sendTransaction : Except String String
  getConfirmation : Except String GetTransactionResponse

/-- What a facade method's returned promise settles to. -/
inductive MethodOutcome where
  | confirmed (r : GetTransactionResponse)
  | errorResult (e : String)
  | undefinedResult
  | raised (e : String)
deriving DecidableEq, Repr

/-- A terminal confirmation or the uniform error object — the two outcomes
the claim allows. -/
def MethodOutcome.isUniform : MethodOutcome → Bool
  | MethodOutcome.confirmed _ => true
  | MethodOutcome.errorResult _ => true
  | _ => false

/-- `true` when the modelled call succeeded. -/
def exceptOk {ε α : Type} : Except ε α → Bool
  | Except.ok _ => true
  | Except.error _ => false

/-- `TxMaker.payment` (lines 95-118). -/
def payment (env : FacadeEnv) : MethodOutcome :=
  match env.loadAccount with
  | Except.error e => MethodOutcome.raised e
  | Except.ok _ =>
    match getNetworkPassphrase env.network with
    | Except.error e => MethodOutcome.raised e
    | Except.ok _ =>
      match env.submitTransaction with
      | Except.error e => MethodOutcome.errorResult e
      | Except.ok _ =>
        match env.getConfirmation with
        | Except.error e => MethodOutcome.errorResult e
        | Except.ok r => MethodOutcome.confirmed r

/-- `TxMaker.liquidityPoolDeposit` error routing (lines 120-158). -/
def liquidityPoolDepositOutcome (env : FacadeEnv) : MethodOutcome :=
  match getNetworkPassphrase env.network with
  | Except.error e => MethodOutcome.errorResult e
  | Except.ok _ =>
    match env.submitTransaction with
    | Except.error e => MethodOutcome.errorResult e
    | Except.ok _ =>
      match env.getConfirmation with
      | Except.error e => MethodOutcome.errorResult e
      | Except.ok r => MethodOutcome.confirmed r

/-- `TxMaker.liquidityPoolWithdraw` (lines 160-180). -/
def liquidityPoolWithdraw (env : FacadeEnv) : MethodOutcome :=
  match env.loadAccount with
  | Except.error e => MethodOutcome.raised e
  | Except.ok _ =>
    match getNetworkPassphrase env.network with
    | Except.error e => MethodOutcome.raised e
    | Except.ok _ =>
      match env.submitTransaction with
      | Except.error e => MethodOutcome.errorResult e
      | Except.ok _ =>
        match env.getConfirmation with
        | Except.error e => MethodOutcome.errorResult e
        | Except.ok r => MethodOutcome.confirmed r

/-- `TxMaker.mintTokens` (lines 182-207). -/
def mintTokens (env : FacadeEnv) : MethodOutcome :=
  match env.getAccount with
  | Except.error e => MethodOutcome.raised e
  | Except.ok _ =>
    match getNetworkPassphrase env.network with
    | Except.error e => MethodOutcome.raised e
    | Except.ok _ =>
      match env.prepareTransaction with
      | Except.error e => MethodOutcome.raised e
      | Except.ok _ =>
        match env.sendTransaction with
        | Except.error e => MethodOutcome.errorResult e
        | Except.ok _ =>
          match env.getConfirmation with
          | Except.error e => MethodOutcome.errorResult e
          | Except.ok r => MethodOutcome.confirmed r

/-- `TxMaker.addLiquiditySoroswap` (lines 209-241): its `catch` only logs. -/
def addLiquiditySoroswap (env : FacadeEnv) : MethodOutcome :=
  match env.getAccount with
  | Except.error e => MethodOutcome.raised e
  | Except.ok _ =>
    match getNetworkPassphrase env.network with
    | Except.error e => MethodOutcome.raised e
    | Except.ok _ =>
      match env.prepareTransaction with
      | Except.error e => MethodOutcome.raised e
      | Except.ok _ =>
        match env.sendTransaction with
        | Except.error _ => MethodOutcome.undefinedResult
        | Except.ok _ =>
          match env.getConfirmation with
          | Except.error _ => MethodOutcome.undefinedResult
          | Except.ok r => MethodOutcome.confirmed r

/-- `TxMaker.removeLiquiditySoroswap` (lines 243-271): same routing as
`addLiquiditySoroswap`. -/
def removeLiquiditySoroswap (env : FacadeEnv) : MethodOutcome :=
  addLiquiditySoroswap env

/-- `TxMaker.swapExactTokensForTokensSoroswap` (lines 273-308): same routing
as `addLiquiditySoroswap`. -/
def swapExactTokensForTokensSoroswap (env : FacadeEnv) : MethodOutcome :=
  addLiquiditySoroswap env

/-- An environment where every preparatory call succeeds but
`sendTransaction` rejects. -/
def sendFailureEnv : FacadeEnv :=
  { network := "testnet"
    loadAccount := Except.ok ⟨"GSOURCE", 1⟩
    getAccount := Except.ok ⟨"GSOURCE", 1⟩
    submitTransaction := Except.ok "deadbeef"
    prepareTransaction := Except.ok ()
    sendTransaction := Except.error "connection reset"
    getConfirmation := Except.ok ⟨GetTransactionStatus.SUCCESS, 0⟩ }

/-- C7 counterexample: when `sendTransaction` rejects,
`addLiquiditySoroswap` resolves to `undefined` — neither a terminal
confirmation result nor the uniform `{status: "error", error}` object — so
not every facade method converts failures into the uniform error object. -/
theorem addLiquiditySoroswap_not_uniform :
    addLiquiditySoroswap sendFailureEnv = MethodOutcome.undefinedResult ∧
    (addLiquiditySoroswap sendFailureEnv).isUniform = false := by
  constructor <;> rfl

/-- C7 (amended): `payment`, `liquidityPoolDeposit`, `liquidityPoolWithdraw`
and `mintTokens` convert failures raised inside their try block into the
uniform error object (for `liquidityPoolDeposit` the whole body is inside
it); `addLiquiditySoroswap`, `removeLiquiditySoroswap` and
`swapExactTokensForTokensSoroswap` catch such failures but resolve to
`undefined` and never produce the uniform error object; and failures of the
calls preceding a method's try block (account loading, passphrase
resolution in `buildTx`, `prepareTransaction`) escape as rejections, as
`payment` with a failing account load shows. -/
theorem facade_error_policy :
    (∀ env : FacadeEnv, exceptOk env.loadAccount = true →
      exceptOk (getNetworkPassphrase env.network) = true →
      (payment env).isUniform = true ∧ (liquidityPoolWithdraw env).isUniform = true) ∧
    (∀ env : FacadeEnv, (liquidityPoolDepositOutcome env).isUniform = true) ∧
    (∀ env : FacadeEnv, exceptOk env.getAccount = true →
      exceptOk (getNetworkPassphrase env.network) = true →
      exceptOk env.prepareTransaction = true →
      (mintTokens env).isUniform = true) ∧
    (∀ (env : FacadeEnv) (e : String),
      addLiquiditySoroswap env ≠ MethodOutcome.errorResult e ∧
      removeLiquiditySoroswap env ≠ MethodOutcome.errorResult e ∧
      swapExactTokensForTokensSoroswap env ≠ MethodOutcome.errorResult e) ∧
    (∀ (env : FacadeEnv) (e : String), env.sendTransaction = Except.error e →
      exceptOk env.getAccount = true →
      exceptOk (getNetworkPassphrase env.network) = true →
      exceptOk env.prepareTransaction = true →
      addLiquiditySoroswap env = MethodOutcome.undefinedResult) ∧
    (∀ (env : FacadeEnv) (e : String), env.loadAccount = Except.error e →
      payment env = MethodOutcome.raised e) := by
  refine ⟨?_, ?_, ?_, ?_, ?_, ?_⟩
  · intro env h1 h2
    rcases hl : env.loadAccount with e | a
    · rw [hl] at h1; simp [exceptOk] at h1
    · rcases hp : getNetworkPassphrase env.network with e | p
      · rw [hp] at h2; simp [exceptOk] at h2
      · constructor
        · rcases hs : env.submitTransaction with e | hsh
          · simp [payment, hl, hp, hs, MethodOutcome.isUniform]
          · rcases hc : env.getConfirmation with e | r <;>
              simp [payment, hl, hp, hs, hc, MethodOutcome.isUniform]
        · rcases hs : env.submitTransaction with e | hsh
          · simp [liquidityPoolWithdraw, hl, hp, hs, MethodOutcome.isUniform]
          · rcases hc : env.getConfirmation with e | r <;>
              simp [liquidityPoolWithdraw, hl, hp, hs, hc, MethodOutcome.isUniform]
  · intro env
    rcases hp : getNetworkPassphrase env.network with e | p
    · simp [liquidityPoolDepositOutcome, hp, MethodOutcome.isUniform]
    · rcases hs : env.submitTransaction with e | hsh
      · simp [liquidityPoolDepositOutcome, hp, hs, MethodOutcome.isUniform]
      · rcases hc : env.getConfirmation with e | r <;>
          simp [liquidityPoolDepositOutcome, hp, hs, hc, MethodOutcome.isUniform]
  · intro env h1 h2 h3
    rcases hg : env.getAccount with e | a
    · rw [hg] at h1; simp [exceptOk] at h1
    · rcases hp : getNetworkPassphrase env.network with e | p
      · rw [hp] at h2; simp [exceptOk] at h2
      · rcases hpr : env.prepareTransaction with e | u
        · rw [hpr] at h3; simp [exceptOk] at h3
        · rcases hs : env.sendTransaction with e | hsh
          · simp [mintTokens, hg, hp, hpr, hs, MethodOutcome.isUniform]
          · rcases hc : env.getConfirmation with e | r <;>
              simp [mintTokens, hg, hp, hpr, hs, hc, MethodOutcome.isUniform]
  · intro env e
    have key : addLiquiditySoroswap env ≠ MethodOutcome.errorResult e := by
      rcases hg : env.getAccount with e1 | a <;>
        simp only [addLiquiditySoroswap, hg]
      · simp
      · rcases hp : getNetworkPassphrase env.network with e2 | p <;> simp only []
        · simp
        · rcases hpr : env.prepareTransaction with e3 | u <;> simp only []
          · simp
          · rcases hs : env.sendTransaction with e4 | hsh <;> simp only []
            · simp
            · rcases hc : env.getConfirmation with e5 | r <;> simp
    exact ⟨key, key, key⟩
  · intro env e hsend h1 h2 h3
    rcases hg : env.getAccount with e1 | a
    · rw [hg] at h1; simp [exceptOk] at h1
    · rcases hp : getNetworkPassphrase env.network with e2 | p
      · rw [hp] at h2; simp [exceptOk] at h2
      · rcases hpr : env.prepareTransaction with e3 | u
        · rw [hpr] at h3; simp [exceptOk] at h3
        · simp [addLiquiditySoroswap, hg, hp, hpr, hsend]
  · intro env e hl
    simp [payment, hl]

/-- C7 witness: the amended policy applied to a concrete environment with a
failing `sendTransaction`, and to a concrete failing account load. -/
theorem facade_error_policy_witness :
    addLiquiditySoroswap sendFailureEnv = MethodOutcome.undefinedResult ∧
    (mintTokens sendFailureEnv).isUniform = true ∧
    payment { sendFailureEnv with loadAccount := Except.error "HTTP 404" } =
      MethodOutcome.raised "HTTP 404" :=
  ⟨facade_error_policy.2.2.2.2.1 sendFailureEnv "connection reset" rfl rfl rfl rfl,
   facade_error_policy.2.2.1 sendFailureEnv rfl rfl rfl,
   facade_error_policy.2.2.2.2.2
     { sendFailureEnv with loadAccount := Except.error "HTTP 404" } "HTTP 404" rfl⟩

end Soroswap
